import Mathlib

/-!
Shallow embedding of the field-tracker attendance API.

Sources embedded here:
- `src/database.js` (first variant, lines 1-248): `employeeDb.getById`,
  `attendanceDb.isCurrentlyCheckedIn`, `attendanceDb.checkIn`,
  `attendanceDb.checkOut`, `locationDb.isWithinLocation`.
- `src/server.js` (updated variant, lines 280-1086): the
  `/api/auth/login`, `/api/attendance/checkin`, `/api/attendance/checkout`
  and `/api/attendance/summary` route handlers.
- `src/setup-database.sql`: the `employees`, `locations` and `attendance`
  table schemas.

Timestamps are rationals (seconds), calendar dates are integers (day
numbers), coordinates are rationals.  The geofence SQL (which computes with
real-valued trigonometry) is embedded separately over `Real`.
-/

/-- JavaScript truthiness of an optional numeric request field: an absent
field (`undefined`) and the number `0` are both falsy. -/
def truthyRat : Option ℚ → Bool
  | none => false
  | some x => decide (x ≠ 0)

/-- JavaScript truthiness of an optional integer-valued field: absent and
`0` are falsy. -/
def truthyNat : Option Nat → Bool
  | none => false
  | some n => decide (n ≠ 0)

/-- JavaScript truthiness of an optional string field: absent and the empty
string are falsy. -/
def truthyStr : Option String → Bool
  | none => false
  | some s => decide (s ≠ "")

/-- JavaScript `a || b` on optional integer fields: yields `a` when `a` is
truthy, otherwise `b` (used for `location_id || employee.assigned_location_id`
in the check-in handler). -/
def jsOr (a b : Option Nat) : Option Nat :=
  if truthyNat a then a else b

/-- Digit run to a natural number, used by the `parseInt` model. -/
def digitsToNat (ds : List Char) : Nat :=
  ds.foldl (fun a c => a * 10 + (c.toNat - 48)) 0

/-- JavaScript `parseInt(str)` (radix 10): skip leading spaces, read an
optional sign, then the longest prefix of decimal digits; `NaN` (here
`none`) when no digit is found.  A fractional string such as "2.5" parses
as `2`: parsing stops at the first non-digit. -/
def parseIntJs (str : String) : Option Int :=
  let cs := str.toList.dropWhile (fun c => c = ' ')
  match cs with
  | '-' :: r =>
      let ds := r.takeWhile Char.isDigit
      if ds.isEmpty then none else some (-(digitsToNat ds : Int))
  | '+' :: r =>
      let ds := r.takeWhile Char.isDigit
      if ds.isEmpty then none else some ((digitsToNat ds : Int))
  | r =>
      let ds := r.takeWhile Char.isDigit
      if ds.isEmpty then none else some ((digitsToNat ds : Int))

/-- Row of the `employees` table (setup-database.sql lines 5-16), restricted
to the columns the embedded handlers read.  `pin_code` is nullable. -/
structure Employee where
  id : Nat
  name : String
  pin_code : Option String
  assigned_location_id : Option Nat
  is_active : Bool
deriving DecidableEq

/-- Row of the `attendance` table (setup-database.sql lines 31-47),
restricted to the columns the embedded code reads or writes. -/
structure AttendanceRow where
  id : Nat
  employee_id : Nat
  attendance_date : Int
  check_in_time : ℚ
  check_out_time : Option ℚ
  check_in_latitude : ℚ
  check_in_longitude : ℚ
  check_out_latitude : Option ℚ
  check_out_longitude : Option ℚ
  location_verified : Bool
  total_hours : Option ℚ
  check_in_location_code : Option String
  check_out_location_code : Option String
  updated_at : ℚ
deriving DecidableEq

/-- Server state: the attendance table, the `SERIAL` id counter, the server
clock (`CURRENT_TIMESTAMP` as seconds and `CURRENT_DATE` as a day number)
and the read-only employee directory. -/
structure St where
  rows : List AttendanceRow
  nextId : Nat
  now : ℚ
  today : Int
  employees : List Employee
deriving DecidableEq

namespace employeeDb

/-- employeeDb.getById (database.js lines 60-64):
`SELECT * FROM employees WHERE id = $1` - note there is no `is_active`
filter in this variant. -/
def getById (employees : List Employee) (id : Nat) : Option Employee :=
  employees.find? (fun e => e.id == id)

end employeeDb

namespace attendanceDb

/-- Result of `ORDER BY check_in_time DESC LIMIT 1` on a list of rows: an
element with maximal `check_in_time`, or `none` on the empty list. -/
def pickLatest : List AttendanceRow → Option AttendanceRow
  | [] => none
  | r :: rs =>
    some ((pickLatest rs).elim r
      (fun m => if r.check_in_time < m.check_in_time then m else r))

/-- The rows matched by the open-session queries: same employee, dated
`CURRENT_DATE`, and no check-out timestamp. -/
def openTodayPred (e : Nat) (today : Int) (r : AttendanceRow) : Bool :=
  r.employee_id == e && r.attendance_date == today && r.check_out_time.isNone

/-- attendanceDb.isCurrentlyCheckedIn (database.js lines 137-148):
`SELECT * FROM attendance WHERE employee_id = $1 AND attendance_date =
CURRENT_DATE AND check_out_time IS NULL ORDER BY check_in_time DESC LIMIT 1`.
The scan is restricted to rows dated the current server date. -/
def isCurrentlyCheckedIn (s : St) (e : Nat) : Option AttendanceRow :=
  pickLatest (s.rows.filter (openTodayPred e s.today))

/-- attendanceDb.checkIn (database.js lines 150-162): inserts a new row with
`attendance_date = CURRENT_DATE`, `check_in_time = CURRENT_TIMESTAMP` and the
given coordinates and verification flag.  The JavaScript function takes only
four parameters `(employeeId, latitude, longitude, locationVerified)`; the
INSERT lists no location-code column, so `check_in_location_code` and
`check_out_location_code` are left NULL.  Returns the created row and the
new state. -/
def checkIn (s : St) (e : Nat) (lat lon : ℚ) (locationVerified : Bool) :
    AttendanceRow × St :=
  let row : AttendanceRow :=
    { id := s.nextId
      employee_id := e
      attendance_date := s.today
      check_in_time := s.now
      check_out_time := none
      check_in_latitude := lat
      check_in_longitude := lon
      check_out_latitude := none
      check_out_longitude := none
      location_verified := locationVerified
      total_hours := none
      check_in_location_code := none
      check_out_location_code := none
      updated_at := s.now }
  (row, { s with rows := s.rows ++ [row], nextId := s.nextId + 1 })

/-- The SET clause of attendanceDb.checkOut (database.js lines 166-187):
check-out timestamp and coordinates, `total_hours = EXTRACT(EPOCH FROM
(CURRENT_TIMESTAMP - check_in_time)) / 3600`, and `updated_at`.  No other
column is listed in the UPDATE. -/
def closeRow (s : St) (lat lon : ℚ) (r : AttendanceRow) : AttendanceRow :=
  { r with
      check_out_time := some s.now
      check_out_latitude := some lat
      check_out_longitude := some lon
      total_hours := some ((s.now - r.check_in_time) / 3600)
      updated_at := s.now }

/-- attendanceDb.checkOut (database.js lines 164-190): updates the open row
of the current date whose id is picked by the subselect (the open row of the
current date with the latest check-in), and returns the updated row
(RETURNING) together with the resulting table.  The JavaScript function takes
only three data parameters `(employeeId, latitude, longitude)`; the UPDATE
sets no location-code column. -/
def checkOut (s : St) (e : Nat) (lat lon : ℚ) :
    Option AttendanceRow × List AttendanceRow :=
  match isCurrentlyCheckedIn s e with
  | none => (none, s.rows)
  | some target =>
    (some (closeRow s lat lon target),
     s.rows.map (fun r =>
       if r.id == target.id && openTodayPred e s.today r
       then closeRow s lat lon r else r))

end attendanceDb

/-- HTTP response as far as the claims are concerned: status code, success
flag and the message string of the JSON body. -/
structure HttpResponse where
  status : Nat
  success : Bool
  message : String
deriving DecidableEq

/-- Body of POST /api/attendance/checkin (server.js line 513): every field
may be absent. -/
structure CheckinReq where
  employee_id : Option Nat
  latitude : Option ℚ
  longitude : Option ℚ
  location_id : Option Nat
  location_code : Option String
  location_type : Option String
deriving DecidableEq

/-- Body of POST /api/attendance/checkout (server.js line 735). -/
structure CheckoutReq where
  employee_id : Option Nat
  latitude : Option ℚ
  longitude : Option ℚ
  location_code : Option String
  location_type : Option String
deriving DecidableEq

/-- Abstraction of the `locationDb.isWithinLocation` collaborator as seen by
the check-in handler: given latitude, longitude and a location id, either
`none` (no such location row) or the `isWithinRadius` boolean of the row it
returns.  The session-state-machine claims hold for every oracle. -/
def GeoOracle : Type := ℚ → ℚ → Nat → Option Bool

namespace server

/-- Coordinate range check of the handlers (server.js lines 540, 765):
`latitude < -90 || latitude > 90 || longitude < -180 || longitude > 180`. -/
def badCoords (lat lon : ℚ) : Prop :=
  lat < -90 ∨ lat > 90 ∨ lon < -180 ∨ lon > 180

instance (lat lon : ℚ) : Decidable (badCoords lat lon) := by
  unfold badCoords
  infer_instance

/-- ASCII lowercasing of one character, as `toLowerCase` does on the
strings involved here. -/
def charToLower (c : Char) : Char :=
  if 65 ≤ c.toNat ∧ c.toNat ≤ 90 then Char.ofNat (c.toNat + 32) else c

/-- ASCII `String.prototype.toLowerCase()`. -/
def strToLower (s : String) : String :=
  String.mk (s.data.map charToLower)

/-- Check of the sentinel location type (server.js lines 581, 794):
`location_type && location_type.toLowerCase() === 'others'`. -/
def isOthers (location_type : Option String) : Bool :=
  truthyStr location_type && strToLower (location_type.getD "") == "others"

/-- POST /api/attendance/checkin (server.js lines 505-643).  Validation
order: employee id presence, coordinate presence (JS truthiness), coordinate
range, employee existence, open-session conflict; then the location-type
branch (the geofence oracle is consulted only outside the "others" branch
and only when a location reference is truthy), and finally
`attendanceDb.checkIn`.  Returns the response and the new state. -/
def checkinHandler (g : GeoOracle) (s : St) (req : CheckinReq) :
    HttpResponse × St :=
  if !(truthyNat req.employee_id) then
    ({ status := 400, success := false, message := "Employee ID is required" }, s)
  else if !(truthyRat req.latitude && truthyRat req.longitude) then
    ({ status := 400, success := false,
       message := "Location (latitude and longitude) is required" }, s)
  else
    let eid := req.employee_id.getD 0
    let lat := req.latitude.getD 0
    let lon := req.longitude.getD 0
    if badCoords lat lon then
      ({ status := 400, success := false, message := "Invalid coordinates" }, s)
    else
      match employeeDb.getById s.employees eid with
      | none =>
        ({ status := 404, success := false, message := "Employee not found" }, s)
      | some emp =>
        match attendanceDb.isCurrentlyCheckedIn s eid with
        | some _ =>
          ({ status := 409, success := false,
             message := "You are already checked in. Please check out first." }, s)
        | none =>
          let locationVerified : Bool :=
            if isOthers req.location_type then
              false
            else
              let checkLocationId := jsOr req.location_id emp.assigned_location_id
              if truthyNat checkLocationId then
                match g lat lon (checkLocationId.getD 0) with
                | some b => b
                | none => false
              else false
          let res := attendanceDb.checkIn s eid lat lon locationVerified
          ({ status := 200, success := true,
             message := "Check-in recorded successfully" }, res.2)

/-- POST /api/attendance/checkout (server.js lines 733-857).  Same validation
profile as check-in; fails 409 when no open session dated the current date
exists; otherwise calls `attendanceDb.checkOut`.  The handler computes a
`finalLocationCode` from `location_type`/`location_code` (lines 790-797) but
`attendanceDb.checkOut` takes no such parameter, so it plays no role in the
state; no geofence lookup appears anywhere in the route.  The unused oracle
parameter mirrors the injected `locationDb` collaborator. -/
def checkoutHandler (_g : GeoOracle) (s : St) (req : CheckoutReq) :
    HttpResponse × St :=
  if !(truthyNat req.employee_id) then
    ({ status := 400, success := false, message := "Employee ID is required" }, s)
  else if !(truthyRat req.latitude && truthyRat req.longitude) then
    ({ status := 400, success := false,
       message := "Location (latitude and longitude) is required" }, s)
  else
    let eid := req.employee_id.getD 0
    let lat := req.latitude.getD 0
    let lon := req.longitude.getD 0
    if badCoords lat lon then
      ({ status := 400, success := false, message := "Invalid coordinates" }, s)
    else
      match employeeDb.getById s.employees eid with
      | none =>
        ({ status := 404, success := false, message := "Employee not found" }, s)
      | some _ =>
        match attendanceDb.isCurrentlyCheckedIn s eid with
        | none =>
          ({ status := 409, success := false,
             message := "No active check-in session found. Please check in first." }, s)
        | some _ =>
          match attendanceDb.checkOut s eid lat lon with
          | (none, rowsAfter) =>
            ({ status := 500, success := false,
               message := "Failed to record check-out" }, { s with rows := rowsAfter })
          | (some _, rowsAfter) =>
            ({ status := 200, success := true,
               message := "Check-out recorded successfully" }, { s with rows := rowsAfter })

/-- The uniform 401 message of POST /api/auth/login (server.js lines 681,
698). -/
def invalidCredentialsMsg : String := "Invalid employee ID or PIN"

/-- The 401 message of the missing-PIN branch (server.js line 690), a
template literal interpolating the employee id. -/
def pinNotSetMsg (eid : Nat) : String :=
  "PIN not set for employee ID " ++ toString eid ++ ". Please contact administrator."

/-- POST /api/auth/login (server.js lines 646-730).  Order: presence check
on both fields, employee lookup via `employeeDb.getById` (which has no
`is_active` filter), 401 when absent, 401 with a distinct message when the
stored `pin_code` is falsy, 401 when the PIN strings differ, else success.
The handler never reads `is_active`. -/
def loginHandler (employees : List Employee) (employee_id : Option Nat)
    (pin_code : Option String) : HttpResponse :=
  if !(truthyNat employee_id && truthyStr pin_code) then
    { status := 400, success := false, message := "Employee ID and PIN are required" }
  else
    let eid := employee_id.getD 0
    match employeeDb.getById employees eid with
    | none => { status := 401, success := false, message := invalidCredentialsMsg }
    | some emp =>
      if !(truthyStr emp.pin_code) then
        { status := 401, success := false, message := pinNotSetMsg eid }
      else if pin_code.getD "" ≠ emp.pin_code.getD "" then
        { status := 401, success := false, message := invalidCredentialsMsg }
      else
        { status := 200, success := true, message := "Login successful" }

end server

/-- Per-day rollup returned by the summary route (spec section "DailySummary"):
date, session counts, summed hours, earliest check-in, latest check-out. -/
structure DaySummary where
  attendance_date : Int
  total_sessions : Nat
  completed_sessions : Nat
  ongoing_sessions : Nat
  total_hours_worked : ℚ
  first_check_in : Option ℚ
  last_check_out : Option ℚ
deriving DecidableEq

namespace attendanceDb

/-- Aggregation of one employee-day, mirroring the getDailySummary SQL
(database.js lines 195-208). -/
def summarizeDay (rows : List AttendanceRow) (e : Nat) (d : Int) : DaySummary :=
  let sess := rows.filter (fun r => r.employee_id == e && r.attendance_date == d)
  { attendance_date := d
    total_sessions := sess.length
    completed_sessions := (sess.filter (fun r => r.check_out_time.isSome)).length
    ongoing_sessions := (sess.filter (fun r => r.check_out_time.isNone)).length
    total_hours_worked := (sess.map (fun r => (r.total_hours.getD 0))).sum
    first_check_in := (sess.map (fun r => r.check_in_time)).min?
    last_check_out := (sess.filterMap (fun r => r.check_out_time)).max? }

/-- Modelled from the spec: `attendanceDb.getLastNDaysSummary` is called by
the summary route (server.js line 970) but is defined nowhere in the
sources.  Per spec section 4.3 and the notes of the root route,
`summarizeRange(employeeId, numDays)` returns per-day summaries covering
the days from `today - (numDays - 1)` to `today` inclusive, ordered
most-recent-first, omitting days with zero sessions. -/
def getLastNDaysSummary (s : St) (e : Nat) (n : Int) : List DaySummary :=
  ((List.range n.toNat).map (fun k => s.today - k)).filterMap (fun d =>
    if (s.rows.filter (fun r => r.employee_id == e && r.attendance_date == d)).isEmpty
    then none
    else some (summarizeDay s.rows e d))

end attendanceDb

namespace server

/-- GET /api/attendance/summary/:employee_id (server.js lines 933-993).
The `days` query parameter defaults to 7; `parseInt` is applied and the
result must lie in [1, 365] - this validation runs before the employee
lookup and before any attendance read.  Returns the response together with
the summary data (when produced). -/
def summaryHandler (s : St) (employee_id : Option Nat) (days : Option String) :
    HttpResponse × Option (List DaySummary) :=
  if !(truthyNat employee_id) then
    ({ status := 400, success := false, message := "Employee ID is required" }, none)
  else
    match parseIntJs (days.getD "7") with
    | none =>
      ({ status := 400, success := false,
         message := "Days parameter must be a number between 1 and 365" }, none)
    | some numDays =>
      if numDays < 1 ∨ numDays > 365 then
        ({ status := 400, success := false,
           message := "Days parameter must be a number between 1 and 365" }, none)
      else
        let eid := employee_id.getD 0
        match employeeDb.getById s.employees eid with
        | none =>
          ({ status := 404, success := false, message := "Employee not found" }, none)
        | some _ =>
          ({ status := 200, success := true, message := "" },
           some (attendanceDb.getLastNDaysSummary s eid numDays))

end server

/-- One request processed by the service, or the server clock moving
forward (possibly crossing midnight, which changes `CURRENT_DATE`).  The
geofence oracle of a check-in step is arbitrary. -/
inductive Step : St → St → Prop
  | checkin (s : St) (g : GeoOracle) (req : CheckinReq) :
      Step s (server.checkinHandler g s req).2
  | checkout (s : St) (g : GeoOracle) (req : CheckoutReq) :
      Step s (server.checkoutHandler g s req).2
  | tick (s : St) (t : ℚ) (d : Int) (ht : s.now ≤ t) (hd : s.today ≤ d) :
      Step s { s with now := t, today := d }

/-- Initial state: empty attendance table, fresh id counter, clock at the
origin, and a given employee directory. -/
def initSt (employees : List Employee) : St :=
  { rows := [], nextId := 1, now := 0, today := 0, employees := employees }

/-- States reachable from the initial state by any sequence of check-in and
check-out requests and clock advances. -/
def Reachable (employees : List Employee) (s : St) : Prop :=
  Relation.ReflTransGen Step (initSt employees) s

/-- Row of the `locations` table (setup-database.sql lines 19-28): center
coordinates in decimal degrees and `radius_meters` (there is no column
named `radius`). -/
structure LocationRow where
  latitude : ℝ
  longitude : ℝ
  radius_meters : Int

/-- JavaScript property access `location.radius` on a row of the
`locations` table: the schema has `radius_meters` but no `radius` column,
so the access yields `undefined` (here `none`). -/
def LocationRow.radius (_ : LocationRow) : Option ℝ := none

/-- A JavaScript number that may be NaN. -/
inductive JsNum where
  | nan : JsNum
  | num : ℝ → JsNum

/-- JavaScript division of a possibly-undefined value by a number:
`undefined / y` is NaN. -/
noncomputable def jsDiv (a : Option ℝ) (y : ℝ) : JsNum :=
  match a with
  | none => JsNum.nan
  | some x => JsNum.num (x / y)

/-- JavaScript `<=` between numbers: every comparison involving NaN is
false. -/
def jsLe (a b : JsNum) : Prop :=
  match a, b with
  | JsNum.num x, JsNum.num y => x ≤ y
  | _, _ => False

/-- PostgreSQL `radians(x)`: degrees to radians. -/
noncomputable def radiansDeg (x : ℝ) : ℝ := x * Real.pi / 180

/-- Great-circle distance (km) computed by the SQL of
locationDb.isWithinLocation (database.js lines 87-95): the spherical law of
cosines with mean Earth radius 6371 km, on the point `(plat, plon)` and the
location's center. -/
noncomputable def sqlDistanceKm (plat plon : ℝ) (loc : LocationRow) : ℝ :=
  6371 * Real.arccos
    (Real.cos (radiansDeg plat) * Real.cos (radiansDeg loc.latitude) *
       Real.cos (radiansDeg loc.longitude - radiansDeg plon) +
     Real.sin (radiansDeg plat) * Real.sin (radiansDeg loc.latitude))

/-- The containment decision of locationDb.isWithinLocation (database.js
line 102): `location.distance <= (location.radius / 1000)`.  Since the row
has no `radius` column, the right-hand side is `undefined / 1000 = NaN`. -/
noncomputable def isWithinRadiusCode (plat plon : ℝ) (loc : LocationRow) : Prop :=
  jsLe (JsNum.num (sqlDistanceKm plat plon loc)) (jsDiv loc.radius 1000)

/-- Modelled from the spec (for comparison with the code): containment is
great-circle distance in meters at most the radius in meters, boundary
inclusive. -/
noncomputable def isWithinRadiusSpec (plat plon : ℝ) (loc : LocationRow) : Prop :=
  1000 * sqlDistanceKm plat plon loc ≤ (loc.radius_meters : ℝ)

/-- The test location inserted by setup-database.sql lines 57-59: center
(28.7041, 77.1025), radius 100 meters. -/
noncomputable def testOffice : LocationRow :=
  { latitude := 28.7041, longitude := 77.1025, radius_meters := 100 }

theorem openTodayPred_true_iff {e : Nat} {d : Int} {x : AttendanceRow} :
    attendanceDb.openTodayPred e d x = true ↔
      x.employee_id = e ∧ x.attendance_date = d ∧ x.check_out_time = none := by
  simp [attendanceDb.openTodayPred, Option.isNone_iff_eq_none, and_assoc]

namespace attendanceDb

theorem pickLatest_eq_none_iff {l : List AttendanceRow} :
    pickLatest l = none ↔ l = [] := by
  cases l <;> simp [pickLatest]

theorem pickLatest_mem {l : List AttendanceRow} {r : AttendanceRow}
    (h : pickLatest l = some r) : r ∈ l := by
  induction l with
  | nil => simp [pickLatest] at h
  | cons a tl ih =>
    rw [pickLatest] at h
    cases htl : pickLatest tl with
    | none =>
      rw [htl] at h
      simp only [Option.elim_none, Option.some.injEq] at h
      simp [h]
    | some m =>
      rw [htl] at h
      simp only [Option.elim_some, Option.some.injEq] at h
      by_cases hc : a.check_in_time < m.check_in_time
      · rw [if_pos hc] at h
        subst h
        exact List.mem_cons_of_mem _ (ih htl)
      · rw [if_neg hc] at h
        simp [h]

theorem pickLatest_max {l : List AttendanceRow} :
    ∀ {r : AttendanceRow}, pickLatest l = some r →
      ∀ x ∈ l, x.check_in_time ≤ r.check_in_time := by
  induction l with
  | nil =>
    intro r h
    simp [pickLatest] at h
  | cons a tl ih =>
    intro r h x hx
    rw [pickLatest] at h
    cases htl : pickLatest tl with
    | none =>
      rw [htl] at h
      simp only [Option.elim_none, Option.some.injEq] at h
      subst h
      rcases List.mem_cons.mp hx with hx | hx
      · simp [hx]
      · rw [pickLatest_eq_none_iff.mp htl] at hx
        simp at hx
    | some m =>
      rw [htl] at h
      simp only [Option.elim_some, Option.some.injEq] at h
      rcases List.mem_cons.mp hx with hx | hx
      · subst hx
        by_cases hc : x.check_in_time < m.check_in_time
        · rw [if_pos hc] at h
          subst h
          exact le_of_lt hc
        · rw [if_neg hc] at h
          simp [h]
      · have hm := ih htl x hx
        by_cases hc : a.check_in_time < m.check_in_time
        · rw [if_pos hc] at h
          subst h
          exact hm
        · rw [if_neg hc] at h
          subst h
          exact le_trans hm (le_of_not_lt hc)

theorem isCurrentlyCheckedIn_none_iff {s : St} {e : Nat} :
    isCurrentlyCheckedIn s e = none ↔
      ∀ x ∈ s.rows, openTodayPred e s.today x = false := by
  rw [isCurrentlyCheckedIn, pickLatest_eq_none_iff, List.filter_eq_nil_iff]
  constructor
  · intro h x hx
    exact Bool.eq_false_iff.mpr (h x hx)
  · intro h x hx
    exact Bool.eq_false_iff.mp (h x hx)

theorem isCurrentlyCheckedIn_some {s : St} {e : Nat} {r : AttendanceRow}
    (h : isCurrentlyCheckedIn s e = some r) :
    r ∈ s.rows ∧ openTodayPred e s.today r = true ∧
      ∀ x ∈ s.rows, openTodayPred e s.today x = true →
        x.check_in_time ≤ r.check_in_time := by
  rw [isCurrentlyCheckedIn] at h
  have hmem := pickLatest_mem h
  have hp := (List.mem_filter.mp hmem).2
  refine ⟨(List.mem_filter.mp hmem).1, hp, ?_⟩
  intro x hx hpx
  exact pickLatest_max h x (List.mem_filter.mpr ⟨hx, hpx⟩)

/-- Rows not matched by the open-today predicate survive a check-out
unchanged (the UPDATE's WHERE clause requires it). -/
theorem checkOut_preserves_unmatched {s : St} {e : Nat} {lat lon : ℚ}
    {x : AttendanceRow} (hx : x ∈ s.rows)
    (hp : openTodayPred e s.today x = false) :
    x ∈ (checkOut s e lat lon).2 := by
  rw [checkOut]
  cases h : isCurrentlyCheckedIn s e with
  | none => exact hx
  | some target =>
    simp only
    have : (fun r => if r.id == target.id && openTodayPred e s.today r
        then closeRow s lat lon r else r) x = x := by
      simp [hp]
    exact this ▸ List.mem_map_of_mem _ hx

end attendanceDb

/-- Case analysis on the check-in route: either it rejects (leaving the
state unchanged) or the open-session guard passed and a row was inserted. -/
theorem checkinHandler_state (g : GeoOracle) (s : St) (req : CheckinReq) :
    (server.checkinHandler g s req).2 = s ∨
    (attendanceDb.isCurrentlyCheckedIn s (req.employee_id.getD 0) = none ∧
     ∃ v, (server.checkinHandler g s req).2 =
        (attendanceDb.checkIn s (req.employee_id.getD 0) (req.latitude.getD 0)
          (req.longitude.getD 0) v).2) := by
  simp only [server.checkinHandler]
  split
  · exact Or.inl rfl
  split
  · exact Or.inl rfl
  split
  · exact Or.inl rfl
  split
  · exact Or.inl rfl
  split
  · exact Or.inl rfl
  rename_i hopen
  exact Or.inr ⟨hopen, _, rfl⟩

/-- Case analysis on the check-out route: either it rejects (state
unchanged) or the table is replaced by the result of
`attendanceDb.checkOut`. -/
theorem checkoutHandler_state (g : GeoOracle) (s : St) (req : CheckoutReq) :
    (server.checkoutHandler g s req).2 = s ∨
    (server.checkoutHandler g s req).2 =
      { s with rows := (attendanceDb.checkOut s (req.employee_id.getD 0)
          (req.latitude.getD 0) (req.longitude.getD 0)).2 } := by
  simp only [server.checkoutHandler]
  split
  · exact Or.inl rfl
  split
  · exact Or.inl rfl
  split
  · exact Or.inl rfl
  split
  · exact Or.inl rfl
  split
  · exact Or.inl rfl
  split
  · rename_i heq
    exact Or.inr (by rw [heq])
  · rename_i heq
    exact Or.inr (by rw [heq])

/-- Counting lemma for UPDATE-shaped maps: if the map can only falsify the
predicate, the count does not grow. -/
theorem countP_map_le {α : Type} (p : α → Bool) (f : α → α)
    (h : ∀ a, p (f a) = true → p a = true) :
    ∀ l : List α, (l.map f).countP p ≤ l.countP p := by
  intro l
  induction l with
  | nil => simp
  | cons a tl ih =>
    rw [List.map_cons, List.countP_cons, List.countP_cons]
    have hcase : (if p (f a) then 1 else 0) ≤ (if p a then 1 else 0) := by
      by_cases hfa : p (f a) = true
      · simp [hfa, h a hfa]
      · simp [Bool.eq_false_iff.mpr hfa]
    omega

/-- Number of open attendance rows of one employee on one calendar date. -/
def openCount (s : St) (e : Nat) (d : Int) : Nat :=
  s.rows.countP (attendanceDb.openTodayPred e d)

theorem openCount_checkIn (s : St) (eid : Nat) (lat lon : ℚ) (v : Bool)
    (hnone : attendanceDb.isCurrentlyCheckedIn s eid = none)
    (hle : ∀ e d, openCount s e d ≤ 1) :
    ∀ e d, openCount (attendanceDb.checkIn s eid lat lon v).2 e d ≤ 1 := by
  intro e d
  have hrows : (attendanceDb.checkIn s eid lat lon v).2.rows
      = s.rows ++ [(attendanceDb.checkIn s eid lat lon v).1] := rfl
  rw [openCount, hrows, List.countP_append]
  by_cases hmatch :
      attendanceDb.openTodayPred e d (attendanceDb.checkIn s eid lat lon v).1 = true
  · have hed : eid = e ∧ s.today = d := by
      have := hmatch
      simp only [attendanceDb.openTodayPred, attendanceDb.checkIn,
        Bool.and_eq_true, beq_iff_eq] at this
      exact ⟨this.1.1, this.1.2⟩
    have hzero : openCount s e d = 0 := by
      rw [openCount, List.countP_eq_zero]
      intro x hx
      rw [← hed.1, ← hed.2]
      exact Bool.eq_false_iff.mp
        ((attendanceDb.isCurrentlyCheckedIn_none_iff.mp hnone) x hx)
    rw [openCount] at hzero
    simp [hmatch, hzero]
  · have : attendanceDb.openTodayPred e d (attendanceDb.checkIn s eid lat lon v).1
        = false := Bool.eq_false_iff.mpr hmatch
    simp [this]
    exact hle e d

theorem openCount_checkOut (s : St) (eid : Nat) (lat lon : ℚ)
    (hle : ∀ e d, openCount s e d ≤ 1) :
    ∀ e d, ((attendanceDb.checkOut s eid lat lon).2.countP
      (attendanceDb.openTodayPred e d)) ≤ 1 := by
  intro e d
  rw [attendanceDb.checkOut]
  cases h : attendanceDb.isCurrentlyCheckedIn s eid with
  | none => exact hle e d
  | some target =>
    simp only
    refine le_trans (countP_map_le _ _ ?_ s.rows) (hle e d)
    intro a ha
    by_cases hc : (a.id == target.id && attendanceDb.openTodayPred eid s.today a) = true
    · rw [if_pos hc] at ha
      simp [attendanceDb.openTodayPred, attendanceDb.closeRow] at ha
    · rw [if_neg hc] at ha
      exact ha

/-- The employee directory used by the concrete scenarios: the test employee
of setup-database.sql lines 50-51. -/
def emps1 : List Employee :=
  [{ id := 1, name := "Test Employee", pin_code := some "1234",
     assigned_location_id := none, is_active := true }]

/-- A geofence oracle standing for a `locations` table with no rows. -/
def geo0 : GeoOracle := fun _ _ _ => none

/-- A plain check-in body with valid coordinates and no location fields. -/
def reqDay : CheckinReq :=
  { employee_id := some 1, latitude := some 10, longitude := some 20,
    location_id := none, location_code := none, location_type := none }

/-- State after a check-in on day 0. -/
def sA : St := (server.checkinHandler geo0 (initSt emps1) reqDay).2

/-- The open session row created on day 0. -/
def rowA : AttendanceRow :=
  { id := 1, employee_id := 1, attendance_date := 0, check_in_time := 0,
    check_out_time := none, check_in_latitude := 10, check_in_longitude := 20,
    check_out_latitude := none, check_out_longitude := none,
    location_verified := false, total_hours := none,
    check_in_location_code := none, check_out_location_code := none,
    updated_at := 0 }

/-- State after the clock crosses midnight: the day-0 session is still open,
but `CURRENT_DATE` is now day 1. -/
def sB : St := { sA with now := 86400, today := 1 }

/-- State after a second check-in on day 1, the day-0 session never having
been checked out. -/
def sTwo : St := (server.checkinHandler geo0 sB reqDay).2

theorem reach_sA : Reachable emps1 sA :=
  Relation.ReflTransGen.single (Step.checkin (initSt emps1) geo0 reqDay)

theorem reach_sB : Reachable emps1 sB :=
  reach_sA.tail (Step.tick sA 86400 1 (by decide) (by decide))

theorem reach_sTwo : Reachable emps1 sTwo :=
  reach_sB.tail (Step.checkin sB geo0 reqDay)

/-- In every reachable state each employee has at most one open session per
calendar date. -/
theorem openCount_invariant (emps : List Employee) (s : St)
    (h : Reachable emps s) : ∀ e d, openCount s e d ≤ 1 := by
  induction h with
  | refl =>
    intro e d
    simp [openCount, initSt]
  | tail hab hstep ih =>
    rename_i b c
    cases hstep with
    | checkin g req =>
      rcases checkinHandler_state g b req with heq | ⟨hnone, v, heq⟩
      · rw [heq]
        exact ih
      · rw [heq]
        exact openCount_checkIn b _ _ _ v hnone ih
    | checkout g req =>
      rcases checkoutHandler_state g b req with heq | heq
      · rw [heq]
        exact ih
      · rw [heq]
        intro e d
        exact openCount_checkOut b _ _ _ ih e d
    | tick t d _ _ =>
      intro e dd
      exact ih e dd

/-- C1. The spec says the open-session lookup scans across all dates, so
that an open session from a prior day is still returned and can be closed
later.  The embedded `isCurrentlyCheckedIn` query filters on
`attendance_date = CURRENT_DATE`, so this fails: here, in a reachable
state, employee 1 has an open session dated day 0 while the current date is
day 1, the lookup returns nothing, and a check-out leaves the table
untouched (the session can no longer be closed). -/
theorem C1_counterexample_prior_day_open_session_not_returned :
    Reachable emps1 sB ∧
    rowA ∈ sB.rows ∧ rowA.check_out_time = none ∧
    rowA.attendance_date = 0 ∧ sB.today = 1 ∧
    attendanceDb.isCurrentlyCheckedIn sB 1 = none ∧
    (attendanceDb.checkOut sB 1 10 20).1 = none ∧
    (attendanceDb.checkOut sB 1 10 20).2 = sB.rows :=
  ⟨reach_sB, by decide, by decide, by decide, by decide, by decide,
   by decide, by decide⟩

/-- C1 (amended).  The open-session lookup used by check-in, check-out and
status scans only sessions dated the current server date: a returned row is
an open row of the current date with maximal check-in time among those; the
lookup returns nothing iff the employee has no open row dated the current
date (open rows from prior days are invisible to it); and a check-out never
touches a row dated differently from the current date, so a prior-day open
session cannot be closed by it. -/
theorem C1_open_session_lookup_scans_current_date_only (s : St) (e : Nat) :
    (∀ r, attendanceDb.isCurrentlyCheckedIn s e = some r →
       r ∈ s.rows ∧ r.employee_id = e ∧ r.attendance_date = s.today ∧
         r.check_out_time = none ∧
         ∀ x ∈ s.rows, x.employee_id = e → x.attendance_date = s.today →
           x.check_out_time = none → x.check_in_time ≤ r.check_in_time) ∧
    (attendanceDb.isCurrentlyCheckedIn s e = none ↔
       ∀ x ∈ s.rows, x.employee_id = e → x.attendance_date = s.today →
         x.check_out_time ≠ none) ∧
    (∀ lat lon : ℚ, ∀ x ∈ s.rows, x.attendance_date ≠ s.today →
       x ∈ (attendanceDb.checkOut s e lat lon).2) := by
  refine ⟨?_, ?_, ?_⟩
  · intro r hr
    obtain ⟨hmem, hp, hmax⟩ := attendanceDb.isCurrentlyCheckedIn_some hr
    obtain ⟨he, hd, ho⟩ := openTodayPred_true_iff.mp hp
    refine ⟨hmem, he, hd, ho, ?_⟩
    intro x hx hxe hxd hxo
    exact hmax x hx (openTodayPred_true_iff.mpr ⟨hxe, hxd, hxo⟩)
  · rw [attendanceDb.isCurrentlyCheckedIn_none_iff]
    constructor
    · intro h x hx hxe hxd hxo
      have htrue := openTodayPred_true_iff.mpr ⟨hxe, hxd, hxo⟩
      rw [h x hx] at htrue
      exact Bool.false_ne_true htrue
    · intro h x hx
      by_cases hxe : x.employee_id = e
      · by_cases hxd : x.attendance_date = s.today
        · have := h x hx hxe hxd
          rw [Bool.eq_false_iff]
          intro hc
          exact this (openTodayPred_true_iff.mp hc).2.2
        · rw [Bool.eq_false_iff]
          intro hc
          exact hxd (openTodayPred_true_iff.mp hc).2.1
      · rw [Bool.eq_false_iff]
        intro hc
        exact hxe (openTodayPred_true_iff.mp hc).1
  · intro lat lon x hx hxd
    refine attendanceDb.checkOut_preserves_unmatched hx ?_
    rw [Bool.eq_false_iff]
    intro hc
    exact hxd (openTodayPred_true_iff.mp hc).2.1

/-- Witness for C1 (amended): on day 0 the lookup returns the open day-0
row, which is dated the current date; on day 1 a check-out leaves the same
(now prior-day) row in the table. -/
theorem C1_open_session_lookup_scans_current_date_only_witness :
    rowA.attendance_date = sA.today ∧ rowA.check_out_time = none ∧
    rowA ∈ (attendanceDb.checkOut sB 1 10 20).2 :=
  ⟨(((C1_open_session_lookup_scans_current_date_only sA 1).1) rowA
      (by decide)).2.2.1,
   (((C1_open_session_lookup_scans_current_date_only sA 1).1) rowA
      (by decide)).2.2.2.1,
   ((C1_open_session_lookup_scans_current_date_only sB 1).2.2) 10 20 rowA
      (by decide) (by decide)⟩

/-- C2.  The spec claims at most one open attendance row per employee in
every reachable state, including across a change of the server date.  This
fails: a check-in on day 0, a midnight crossing, and a check-in on day 1
(all guards passing, since the open-session guard only sees rows dated the
current date) reach a state with two open rows for employee 1. -/
theorem C2_counterexample_two_open_sessions :
    Reachable emps1 sTwo ∧
    sTwo.rows.countP (fun r => r.employee_id == 1 && r.check_out_time.isNone)
      = 2 :=
  ⟨reach_sTwo, by decide⟩

/-- C2 (amended).  In every state reachable by any sequence of check-in and
check-out operations (including across date changes, no concurrency), each
employee has at most one open attendance row per calendar date; across
distinct dates several open rows can coexist. -/
theorem C2_at_most_one_open_session_per_employee_and_date
    (emps : List Employee) (s : St) (h : Reachable emps s) (e : Nat) (d : Int) :
    s.rows.countP (attendanceDb.openTodayPred e d) ≤ 1 :=
  openCount_invariant emps s h e d

/-- Witness for C2 (amended) at a concrete reachable state. -/
theorem C2_at_most_one_open_session_per_employee_and_date_witness :
    Reachable emps1 sTwo ∧
    sTwo.rows.countP (attendanceDb.openTodayPred 1 1) ≤ 1 :=
  ⟨reach_sTwo,
   C2_at_most_one_open_session_per_employee_and_date emps1 sTwo reach_sTwo 1 1⟩

/-- The missing-PIN message can never coincide with the generic
credentials message: the lengths already differ. -/
theorem pinNotSetMsg_ne_invalid (n : Nat) :
    server.pinNotSetMsg n ≠ server.invalidCredentialsMsg := by
  intro h
  have h2 := congrArg String.length h
  rw [server.pinNotSetMsg, server.invalidCredentialsMsg, String.length_append,
    String.length_append] at h2
  have e1 : ("PIN not set for employee ID ").length = 28 := rfl
  have e2 : (". Please contact administrator.").length = 31 := rfl
  have e3 : ("Invalid employee ID or PIN").length = 26 := rfl
  rw [e1, e2, e3] at h2
  omega

/-- Employee directory exercising the login paths the spec gets wrong:
employee 1 has no PIN configured, employee 2 is inactive with PIN "9". -/
def emps3 : List Employee :=
  [{ id := 1, name := "NoPin", pin_code := none,
     assigned_location_id := none, is_active := true },
   { id := 2, name := "Inactive", pin_code := some "9",
     assigned_location_id := none, is_active := false }]

/-- C3.  The spec says all four failure cases (absent, inactive, no PIN,
wrong PIN) yield 401 with the same generic message.  Two cases diverge:
an employee with no PIN configured gets 401 with a distinct message that
names the failing part, and an inactive employee is not rejected at all
(the `getById` query has no `is_active` filter), logging in successfully
with a matching PIN. -/
theorem C3_counterexample_login_messages_and_inactive :
    (server.loginHandler emps3 (some 1) (some "1234")).status = 401 ∧
    (server.loginHandler emps3 (some 1) (some "1234")).message ≠
      server.invalidCredentialsMsg ∧
    (employeeDb.getById emps3 2).map Employee.is_active = some false ∧
    (server.loginHandler emps3 (some 2) (some "9")).status = 200 ∧
    (server.loginHandler emps3 (some 2) (some "9")).success = true :=
  ⟨by decide, by decide, by decide, by decide, by decide⟩

/-- C3 (amended).  For a login request with both fields present: an absent
employee and a PIN mismatch fail with 401 and the same generic "invalid
credentials" message; an employee with no PIN configured fails with 401 but
with a distinct message revealing that the PIN is missing; and whenever the
supplied PIN string-equals the stored PIN, login succeeds - the active flag
is never consulted, so inactive employees are not rejected. -/
theorem C3_login_uniformity (employees : List Employee) (eid : Option Nat)
    (pin : Option String) (h1 : truthyNat eid = true)
    (h2 : truthyStr pin = true) :
    (employeeDb.getById employees (eid.getD 0) = none →
       server.loginHandler employees eid pin =
         { status := 401, success := false,
           message := server.invalidCredentialsMsg }) ∧
    (∀ emp, employeeDb.getById employees (eid.getD 0) = some emp →
       (truthyStr emp.pin_code = false →
          server.loginHandler employees eid pin =
            { status := 401, success := false,
              message := server.pinNotSetMsg (eid.getD 0) } ∧
          server.pinNotSetMsg (eid.getD 0) ≠ server.invalidCredentialsMsg) ∧
       (truthyStr emp.pin_code = true →
          (pin.getD "" ≠ emp.pin_code.getD "" →
             server.loginHandler employees eid pin =
               { status := 401, success := false,
                 message := server.invalidCredentialsMsg }) ∧
          (pin.getD "" = emp.pin_code.getD "" →
             server.loginHandler employees eid pin =
               { status := 200, success := true,
                 message := "Login successful" }))) := by
  refine ⟨?_, ?_⟩
  · intro hnone
    simp [server.loginHandler, h1, h2, hnone]
  · intro emp hemp
    refine ⟨?_, ?_⟩
    · intro hnopin
      refine ⟨?_, pinNotSetMsg_ne_invalid _⟩
      simp [server.loginHandler, h1, h2, hemp, hnopin]
    · intro hpin
      refine ⟨?_, ?_⟩
      · intro hne
        simp [server.loginHandler, h1, h2, hemp, hpin, hne]
      · intro heq
        simp [server.loginHandler, h1, h2, hemp, hpin, heq]

/-- Witness for C3 (amended): unknown id and wrong PIN give the generic
message; the matching PIN of the (inactive) employee 2 succeeds. -/
theorem C3_login_uniformity_witness :
    server.loginHandler emps3 (some 5) (some "1") =
      { status := 401, success := false,
        message := server.invalidCredentialsMsg } ∧
    server.loginHandler emps3 (some 2) (some "0") =
      { status := 401, success := false,
        message := server.invalidCredentialsMsg } ∧
    server.loginHandler emps3 (some 2) (some "9") =
      { status := 200, success := true, message := "Login successful" } :=
  ⟨(C3_login_uniformity emps3 (some 5) (some "1") (by decide) (by decide)).1
      (by decide),
   (((C3_login_uniformity emps3 (some 2) (some "0") (by decide)
        (by decide)).2 (Employee.mk 2 "Inactive" (some "9") none false)
        (by decide)).2 (by decide)).1 (by decide),
   (((C3_login_uniformity emps3 (some 2) (some "9") (by decide)
        (by decide)).2 (Employee.mk 2 "Inactive" (some "9") none false)
        (by decide)).2 (by decide)).2 (by decide)⟩

/-- Directory with an employee carrying an assigned default location, so
that a geofence lookup would be attempted were the "others" branch not
taken. -/
def emps4 : List Employee :=
  [{ id := 1, name := "Test Employee", pin_code := some "1234",
     assigned_location_id := some 5, is_active := true }]

/-- Check-in body with `location_type` "Others" (mixed case), an explicit
location reference and a location code. -/
def req4 : CheckinReq :=
  { employee_id := some 1, latitude := some 10, longitude := some 20,
    location_id := some 7, location_code := some "SITE-42",
    location_type := some "Others" }

/-- Initial state over `emps4`. -/
def s4 : St := initSt emps4

/-- C4.  With `location_type` equal to "others" case-insensitively, the
check-in handler consults no geofence oracle (the response and state are
the same for every oracle, even though both an explicit `location_id` and
an assigned default location are present) and the created row has
`location_verified = false`.  But the claim's "location_code is stored
verbatim" fails: `attendanceDb.checkIn` takes only four parameters and its
INSERT names no location-code column, so the handler's fifth argument is
dropped and the stored `check_in_location_code` is NULL, not "SITE-42". -/
theorem C4_others_skips_geofence_but_drops_location_code :
    (∀ g gOther : GeoOracle,
       server.checkinHandler g s4 req4 = server.checkinHandler gOther s4 req4) ∧
    (server.checkinHandler geo0 s4 req4).1.status = 200 ∧
    (server.checkinHandler geo0 s4 req4).2.rows = [rowA] ∧
    rowA.location_verified = false ∧
    req4.location_code = some "SITE-42" ∧
    rowA.check_in_location_code = none ∧
    rowA.check_in_location_code ≠ req4.location_code := by
  have hoth : server.isOthers req4.location_type = true := by decide
  have h1 : truthyNat req4.employee_id = true := by decide
  have h2 : (truthyRat req4.latitude && truthyRat req4.longitude) = true := by
    decide
  have h3 : ¬ server.badCoords (req4.latitude.getD 0) (req4.longitude.getD 0) := by
    decide
  have h4 : employeeDb.getById s4.employees (req4.employee_id.getD 0) =
      some (Employee.mk 1 "Test Employee" (some "1234") (some 5) true) := by
    decide
  have h5 : attendanceDb.isCurrentlyCheckedIn s4 (req4.employee_id.getD 0) =
      none := by decide
  refine ⟨?_, by decide, ?_, by decide, by decide, by decide, by decide⟩
  · intro g gOther
    simp [server.checkinHandler, hoth, h1, h2, h3, h4, h5]
  · have hred : ∀ g : GeoOracle, server.checkinHandler g s4 req4 =
        ({ status := 200, success := true,
           message := "Check-in recorded successfully" },
         (attendanceDb.checkIn s4 (req4.employee_id.getD 0)
           (req4.latitude.getD 0) (req4.longitude.getD 0) false).2) := by
      intro g
      simp [server.checkinHandler, hoth, h1, h2, h3, h4, h5]
    rw [hred geo0]
    decide

/-- At the center of the test location the SQL great-circle distance is
zero: the law-of-cosines argument collapses to sin-squared plus cos-squared
and `arccos 1 = 0`. -/
theorem sqlDistanceKm_center :
    sqlDistanceKm 28.7041 77.1025 testOffice = 0 := by
  have hx : Real.cos (radiansDeg 28.7041) * Real.cos (radiansDeg 28.7041) +
      Real.sin (radiansDeg 28.7041) * Real.sin (radiansDeg 28.7041) = 1 := by
    have h := Real.sin_sq_add_cos_sq (radiansDeg 28.7041)
    nlinarith [h]
  simp only [sqlDistanceKm, testOffice]
  rw [sub_self, Real.cos_zero, mul_one, hx, Real.arccos_one, mul_zero]

/-- C5.  The spec says containment is great-circle distance at most the
radius, boundary inclusive, and that the center point of the test location
verifies as within.  The code compares `location.distance` with
`location.radius / 1000`, but the `locations` schema has `radius_meters`
and no `radius` column, so the right-hand side is `undefined / 1000 = NaN`
and the comparison is false for every point and every location: even the
exact center of the test location - where the great-circle distance is `0`,
within the 100 m radius as the spec demands - verifies as not within. -/
theorem C5_geofence_never_within_radius_column_bug :
    (∀ plat plon : ℝ, ∀ loc : LocationRow, ¬ isWithinRadiusCode plat plon loc) ∧
    sqlDistanceKm 28.7041 77.1025 testOffice = 0 ∧
    isWithinRadiusSpec 28.7041 77.1025 testOffice ∧
    ¬ isWithinRadiusCode 28.7041 77.1025 testOffice := by
  refine ⟨fun _ _ _ h => h, sqlDistanceKm_center, ?_, fun h => h⟩
  rw [isWithinRadiusSpec, sqlDistanceKm_center]
  norm_num [testOffice]

/-- C6.  The summary route's validation - `parseInt(days)` must land in
[1, 365] - runs before the employee lookup and before any attendance read,
as the claim says (the rejection below is one constant for every state
`s`).  But "any non-integer value fails" is refuted by the counterexample
theorem: `parseInt` truncates "2.5" to the in-range integer 2, so that
request succeeds (amended accordingly).  Since `getLastNDaysSummary` is
absent from the sources, the success payload is checked against its
spec-modelled definition. -/
theorem C6_summary_days_validation (s : St) (eid : Option Nat)
    (h1 : truthyNat eid = true) :
    server.summaryHandler s eid (some "0") =
      ({ status := 400, success := false,
         message := "Days parameter must be a number between 1 and 365" }, none) ∧
    server.summaryHandler s eid (some "366") =
      ({ status := 400, success := false,
         message := "Days parameter must be a number between 1 and 365" }, none) ∧
    (∀ emp, employeeDb.getById s.employees (eid.getD 0) = some emp →
       server.summaryHandler s eid (some "1") =
         ({ status := 200, success := true, message := "" },
          some (attendanceDb.getLastNDaysSummary s (eid.getD 0) 1)) ∧
       server.summaryHandler s eid (some "365") =
         ({ status := 200, success := true, message := "" },
          some (attendanceDb.getLastNDaysSummary s (eid.getD 0) 365))) := by
  have p0 : parseIntJs "0" = some 0 := by decide
  have p366 : parseIntJs "366" = some 366 := by decide
  have p1 : parseIntJs "1" = some 1 := by decide
  have p365 : parseIntJs "365" = some 365 := by decide
  refine ⟨?_, ?_, ?_⟩
  · simp [server.summaryHandler, h1, p0,
      show ((0:Int) < 1 ∨ (0:Int) > 365) from Or.inl (by decide)]
  · simp [server.summaryHandler, h1, p366,
      show ((366:Int) < 1 ∨ (366:Int) > 365) from Or.inr (by decide)]
  · intro emp hemp
    constructor
    · simp [server.summaryHandler, h1, p1, hemp,
        show ¬((1:Int) < 1 ∨ (1:Int) > 365) from by decide]
    · simp [server.summaryHandler, h1, p365, hemp,
        show ¬((365:Int) < 1 ∨ (365:Int) > 365) from by decide]

/-- Witness for C6 at a concrete state and employee. -/
theorem C6_summary_days_validation_witness :
    server.summaryHandler (initSt emps1) (some 1) (some "0") =
      ({ status := 400, success := false,
         message := "Days parameter must be a number between 1 and 365" }, none) ∧
    server.summaryHandler (initSt emps1) (some 1) (some "1") =
      ({ status := 200, success := true, message := "" },
       some (attendanceDb.getLastNDaysSummary (initSt emps1) 1 1)) :=
  ⟨(C6_summary_days_validation (initSt emps1) (some 1) (by decide)).1,
   ((C6_summary_days_validation (initSt emps1) (some 1) (by decide)).2.2
      (Employee.mk 1 "Test Employee" (some "1234") none true) (by decide)).1⟩

/-- C6 counterexample to the "any non-integer value fails" part: the
query string "2.5" is not an integer, yet `parseInt` truncates it to 2 and
the request succeeds with HTTP 200. -/
theorem C6_counterexample_fractional_days_accepted :
    parseIntJs "2.5" = some 2 ∧
    (server.summaryHandler (initSt emps1) (some 1) (some "2.5")).1.status = 200 ∧
    (server.summaryHandler (initSt emps1) (some 1) (some "2.5")).1.success = true :=
  ⟨by decide, by decide, by decide⟩

/-- State one hour after the day-0 check-in, same calendar date. -/
def sC : St := { sA with now := 3600 }

/-- The day-0 row as closed by a check-out at `sC`. -/
def rowC : AttendanceRow := attendanceDb.closeRow sC 11 21 rowA

/-- C7.  A row created by check-in has no check-out timestamp and no
duration; the row closed by check-out carries `total_hours` equal to
exactly (check-out time minus check-in time) / 3600 - in particular within
the claimed 0.01-hour tolerance - and the duration is non-negative whenever
the clock did not run backwards; and rows that already have a check-out
timestamp are never modified by a further check-out, so the duration is set
exactly once, at check-out. -/
theorem C7_duration_set_exactly_once_at_checkout :
    (∀ s : St, ∀ e : Nat, ∀ lat lon : ℚ, ∀ v : Bool,
       (attendanceDb.checkIn s e lat lon v).1.check_out_time = none ∧
       (attendanceDb.checkIn s e lat lon v).1.total_hours = none ∧
       (attendanceDb.checkIn s e lat lon v).2.rows =
         s.rows ++ [(attendanceDb.checkIn s e lat lon v).1]) ∧
    (∀ s : St, ∀ e : Nat, ∀ lat lon : ℚ, ∀ r : AttendanceRow,
       ∀ rest : List AttendanceRow,
       attendanceDb.checkOut s e lat lon = (some r, rest) →
       r.check_out_time = some s.now ∧
       r.total_hours = some ((s.now - r.check_in_time) / 3600) ∧
       (∀ tOut h : ℚ, r.check_out_time = some tOut → r.total_hours = some h →
          |h - (tOut - r.check_in_time) / 3600| ≤ 1 / 100) ∧
       (r.check_in_time ≤ s.now → ∀ h : ℚ, r.total_hours = some h → 0 ≤ h)) ∧
    (∀ s : St, ∀ e : Nat, ∀ lat lon : ℚ, ∀ x ∈ s.rows, x.check_out_time ≠ none →
       x ∈ (attendanceDb.checkOut s e lat lon).2) := by
  refine ⟨fun s e lat lon v => ⟨rfl, rfl, rfl⟩, ?_, ?_⟩
  · intro s e lat lon r rest h
    rw [attendanceDb.checkOut] at h
    cases hc : attendanceDb.isCurrentlyCheckedIn s e with
    | none =>
      rw [hc] at h
      simp at h
    | some target =>
      rw [hc] at h
      simp only [Prod.mk.injEq, Option.some.injEq] at h
      obtain ⟨hr, -⟩ := h
      subst hr
      refine ⟨rfl, rfl, ?_, ?_⟩
      · intro tOut h hOut hH
        simp only [attendanceDb.closeRow, Option.some.injEq] at hOut hH
        have hfix : (attendanceDb.closeRow s lat lon target).check_in_time =
            target.check_in_time := rfl
        rw [hfix, ← hOut, ← hH, sub_self, abs_zero]
        norm_num
      · intro hle h hH
        simp only [attendanceDb.closeRow, Option.some.injEq] at hH
        rw [← hH]
        have h3600 : (0:ℚ) ≤ 3600 := by norm_num
        exact div_nonneg (sub_nonneg.mpr hle) h3600
  · intro s e lat lon x hx hclosed
    apply attendanceDb.checkOut_preserves_unmatched hx
    rw [Bool.eq_false_iff]
    intro hc
    exact hclosed (openTodayPred_true_iff.mp hc).2.2

/-- The one-hour session stores a duration of exactly one hour. -/
theorem rowC_total_hours : rowC.total_hours = some 1 := by
  show some ((sC.now - rowA.check_in_time) / 3600) = some 1
  norm_num [sC, sA, rowA]

/-- Witness for C7: checking out one hour after check-in stores exactly one
hour. -/
theorem C7_duration_set_exactly_once_at_checkout_witness :
    attendanceDb.checkOut sC 1 11 21 = (some rowC, [rowC]) ∧
    rowC.total_hours = some 1 ∧
    (0:ℚ) ≤ 1 ∧
    |(1:ℚ) - (3600 - rowC.check_in_time) / 3600| ≤ 1 / 100 :=
  ⟨rfl, rowC_total_hours,
   (C7_duration_set_exactly_once_at_checkout.2.1 sC 1 11 21 rowC [rowC]
      rfl).2.2.2 (by decide) 1 rowC_total_hours,
   (C7_duration_set_exactly_once_at_checkout.2.1 sC 1 11 21 rowC [rowC]
      rfl).2.2.1 3600 1 rfl rowC_total_hours⟩

/-- A check-out body with valid fields for employee 1. -/
def reqOut : CheckoutReq :=
  { employee_id := some 1, latitude := some 10, longitude := some 20,
    location_code := none, location_type := none }

/-- C8.  The conflict detection is restricted to sessions dated the current
server date: here employee 1 has an open (prior-day) session, yet the
check-in on day 1 returns HTTP 200 and inserts a second row instead of the
claimed 409-with-no-insert. -/
theorem C8_counterexample_checkin_succeeds_despite_open_session :
    Reachable emps1 sB ∧
    sB.rows.countP (fun r => r.employee_id == 1 && r.check_out_time.isNone)
      = 1 ∧
    (server.checkinHandler geo0 sB reqDay).1.status = 200 ∧
    (server.checkinHandler geo0 sB reqDay).2.rows.length = sB.rows.length + 1 :=
  ⟨reach_sB, by decide, by decide, by decide⟩

/-- C8 (amended).  When the employee has an open session dated the current
server date, a further check-in fails with HTTP 409 and the state is
unchanged (no row inserted); when the employee has no open session dated
the current date, a check-out fails with HTTP 409 and the state is
unchanged (no row modified).  Open sessions from prior dates do not trigger
the check-in conflict, nor do they count as active for check-out. -/
theorem C8_conflict_detection_current_date (g : GeoOracle) (s : St) :
    (∀ req : CheckinReq, ∀ r : AttendanceRow,
       truthyNat req.employee_id = true →
       truthyRat req.latitude = true → truthyRat req.longitude = true →
       ¬ server.badCoords (req.latitude.getD 0) (req.longitude.getD 0) →
       (employeeDb.getById s.employees (req.employee_id.getD 0)).isSome = true →
       attendanceDb.isCurrentlyCheckedIn s (req.employee_id.getD 0) = some r →
       server.checkinHandler g s req =
         ({ status := 409, success := false,
            message := "You are already checked in. Please check out first." },
          s)) ∧
    (∀ req : CheckoutReq,
       truthyNat req.employee_id = true →
       truthyRat req.latitude = true → truthyRat req.longitude = true →
       ¬ server.badCoords (req.latitude.getD 0) (req.longitude.getD 0) →
       (employeeDb.getById s.employees (req.employee_id.getD 0)).isSome = true →
       attendanceDb.isCurrentlyCheckedIn s (req.employee_id.getD 0) = none →
       server.checkoutHandler g s req =
         ({ status := 409, success := false,
            message := "No active check-in session found. Please check in first." },
          s)) := by
  constructor
  · intro req r h1 h2 h3 h4 h5 h6
    obtain ⟨emp, hemp⟩ := Option.isSome_iff_exists.mp h5
    simp [server.checkinHandler, h1, h2, h3, h4, hemp, h6]
  · intro req h1 h2 h3 h4 h5 h6
    obtain ⟨emp, hemp⟩ := Option.isSome_iff_exists.mp h5
    simp [server.checkoutHandler, h1, h2, h3, h4, hemp, h6]

/-- Witness for C8 (amended): a same-day double check-in is rejected with
409 and no insert, and a check-out with no current-date open session is
rejected with 409 and no update. -/
theorem C8_conflict_detection_current_date_witness :
    server.checkinHandler geo0 sA reqDay =
      ({ status := 409, success := false,
         message := "You are already checked in. Please check out first." },
       sA) ∧
    server.checkoutHandler geo0 sB reqOut =
      ({ status := 409, success := false,
         message := "No active check-in session found. Please check in first." },
       sB) :=
  ⟨(C8_conflict_detection_current_date geo0 sA).1 reqDay rowA (by decide)
     (by decide) (by decide) (by decide) (by decide) (by decide),
   (C8_conflict_detection_current_date geo0 sB).2 reqOut (by decide)
     (by decide) (by decide) (by decide) (by decide) (by decide)⟩

/-- An oracle that reports every point as inside every location, used to
show the check-out route never consults the geofence. -/
def geoAll : GeoOracle := fun _ _ _ => some true

/-- C9.  The check-out route never consults the geofence collaborator (its
result is identical under any two oracles), and the row it closes changes
only in the check-out bookkeeping: it equals `closeRow` of the original -
which sets exactly the check-out timestamp, check-out coordinates,
`total_hours` and `updated_at` - while the calendar date, check-in
timestamp, check-in coordinates, both location codes and the
location-verification flag keep their original values. -/
theorem C9_checkout_changes_only_checkout_fields :
    (∀ g gOther : GeoOracle, ∀ s : St, ∀ req : CheckoutReq,
       server.checkoutHandler g s req = server.checkoutHandler gOther s req) ∧
    (∀ s : St, ∀ e : Nat, ∀ lat lon : ℚ, ∀ r : AttendanceRow,
       ∀ rest : List AttendanceRow,
       attendanceDb.checkOut s e lat lon = (some r, rest) →
       ∃ orig, orig ∈ s.rows ∧ orig.check_out_time = none ∧
         orig.attendance_date = s.today ∧ orig.employee_id = e ∧
         r = attendanceDb.closeRow s lat lon orig ∧
         r.attendance_date = orig.attendance_date ∧
         r.check_in_time = orig.check_in_time ∧
         r.check_in_latitude = orig.check_in_latitude ∧
         r.check_in_longitude = orig.check_in_longitude ∧
         r.check_in_location_code = orig.check_in_location_code ∧
         r.check_out_location_code = orig.check_out_location_code ∧
         r.location_verified = orig.location_verified) := by
  constructor
  · intro g gOther s req
    rfl
  · intro s e lat lon r rest h
    rw [attendanceDb.checkOut] at h
    cases hc : attendanceDb.isCurrentlyCheckedIn s e with
    | none =>
      rw [hc] at h
      simp at h
    | some target =>
      rw [hc] at h
      simp only [Prod.mk.injEq, Option.some.injEq] at h
      obtain ⟨hr, -⟩ := h
      subst hr
      obtain ⟨hmem, hp, -⟩ := attendanceDb.isCurrentlyCheckedIn_some hc
      obtain ⟨he, hd, ho⟩ := openTodayPred_true_iff.mp hp
      exact ⟨target, hmem, ho, hd, he, rfl, rfl, rfl, rfl, rfl, rfl, rfl, rfl⟩

/-- Witness for C9 at the one-hour session of `sC`. -/
theorem C9_checkout_changes_only_checkout_fields_witness :
    server.checkoutHandler geo0 sC reqOut =
      server.checkoutHandler geoAll sC reqOut ∧
    (∃ orig, orig ∈ sC.rows ∧ orig.check_out_time = none ∧
       orig.attendance_date = sC.today ∧ orig.employee_id = 1 ∧
       rowC = attendanceDb.closeRow sC 11 21 orig ∧
       rowC.attendance_date = orig.attendance_date ∧
       rowC.check_in_time = orig.check_in_time ∧
       rowC.check_in_latitude = orig.check_in_latitude ∧
       rowC.check_in_longitude = orig.check_in_longitude ∧
       rowC.check_in_location_code = orig.check_in_location_code ∧
       rowC.check_out_location_code = orig.check_out_location_code ∧
       rowC.location_verified = orig.location_verified) :=
  ⟨C9_checkout_changes_only_checkout_fields.1 geo0 geoAll sC reqOut,
   C9_checkout_changes_only_checkout_fields.2 sC 1 11 21 rowC [rowC] rfl⟩

/-- C10.  Field presence is tested with JavaScript truthiness before the
range check, and the number 0 is falsy: a check-in or check-out whose
latitude or longitude equals 0 - although 0 lies inside the valid ranges -
is rejected with HTTP 400 and the missing-coordinate message, and the state
is unchanged (no session created or modified). -/
theorem C10_zero_coordinate_rejected_as_missing :
    (∀ g : GeoOracle, ∀ s : St, ∀ req : CheckinReq,
       truthyNat req.employee_id = true →
       (req.latitude = some 0 ∨ req.longitude = some 0) →
       server.checkinHandler g s req =
         ({ status := 400, success := false,
            message := "Location (latitude and longitude) is required" }, s)) ∧
    (∀ g : GeoOracle, ∀ s : St, ∀ req : CheckoutReq,
       truthyNat req.employee_id = true →
       (req.latitude = some 0 ∨ req.longitude = some 0) →
       server.checkoutHandler g s req =
         ({ status := 400, success := false,
            message := "Location (latitude and longitude) is required" }, s)) := by
  constructor
  · intro g s req h1 h2
    have hfalse : (truthyRat req.latitude && truthyRat req.longitude) = false := by
      rcases h2 with h2 | h2 <;> rw [h2] <;> simp [truthyRat]
    simp [server.checkinHandler, h1, hfalse]
  · intro g s req h1 h2
    have hfalse : (truthyRat req.latitude && truthyRat req.longitude) = false := by
      rcases h2 with h2 | h2 <;> rw [h2] <;> simp [truthyRat]
    simp [server.checkoutHandler, h1, hfalse]

/-- Witness for C10: latitude 0 on check-in and longitude 0 on check-out
are both rejected as missing location. -/
theorem C10_zero_coordinate_rejected_as_missing_witness :
    server.checkinHandler geo0 sA
      { employee_id := some 1, latitude := some 0, longitude := some 20,
        location_id := none, location_code := none, location_type := none } =
      ({ status := 400, success := false,
         message := "Location (latitude and longitude) is required" }, sA) ∧
    server.checkoutHandler geo0 sA
      { employee_id := some 1, latitude := some 10, longitude := some 0,
        location_code := none, location_type := none } =
      ({ status := 400, success := false,
         message := "Location (latitude and longitude) is required" }, sA) :=
  ⟨C10_zero_coordinate_rejected_as_missing.1 geo0 sA
     { employee_id := some 1, latitude := some 0, longitude := some 20,
       location_id := none, location_code := none, location_type := none }
     (by decide) (Or.inl rfl),
   C10_zero_coordinate_rejected_as_missing.2 geo0 sA
     { employee_id := some 1, latitude := some 10, longitude := some 0,
       location_code := none, location_type := none }
     (by decide) (Or.inr rfl)⟩
